import Mathlib

/-!
Verification of the diag-client-lib DoIP client against its specification.

The repository sources under scrutiny are the client facade
(`appl/src/diagnostic_client.cpp`, `appl/src/diagnostic_client_impl.cpp`),
the `DiagnosticManager` interface and the component tests.  The DoIP codec,
the TCP channel state machine, vehicle discovery and the conversation
manager are declared and exercised by those files but their definitions are
not part of the available sources; they are modelled here from the
specification (each such definition carries a doc comment starting with
`Modelled from the spec:`).
-/

namespace DiagClientLib

/-! ## DoIP codec (spec §4.2) -/

/-- Modelled from the spec: maximum DoIP payload size accepted by the codec
(spec §4.2 step 2, "configurable, default 65535"); the codec implementation
is not among the available sources. -/
def kMaxPayloadSize : Nat := 65535

/-- Modelled from the spec: a DoIP message in decoded form (spec §3,
"DoIP Message"): protocol version, its bitwise inverse, payload type,
payload length and raw payload bytes. -/
structure DoipMessage where
  protocol_version : Nat
  inverse : Nat
  payload_type : Nat
  payload_length : Nat
  payload : List Nat
deriving DecidableEq

/-- Modelled from the spec: the DoIP payload types the codec knows
(spec §3 "Payload variants", with their ISO 13400-2 numbers):
generic header negative ack, the three vehicle identification requests,
vehicle announcement, routing activation request/response, alive check
request/response, diagnostic message and its positive/negative acks. -/
def knownPayloadTypes : List Nat :=
  [0x0000, 0x0001, 0x0002, 0x0003, 0x0004, 0x0005, 0x0006, 0x0007, 0x0008,
   0x8001, 0x8002, 0x8003]

/-- Modelled from the spec: codec error kinds (spec §7 "Codec"). -/
inductive CodecErr where
  | kIncorrectPattern
  | kUnknownPayloadType
  | kInvalidPayloadLength
  | kMessageTooLarge
deriving DecidableEq

/-- Modelled from the spec: bit-exact DoIP encoding (spec §4.2): the 8-byte
header `version | ~version | payload_type (2, BE) | payload_length (4, BE)`
followed by the payload bytes; all multi-byte integers big-endian. -/
def encode (m : DoipMessage) : List Nat :=
  m.protocol_version ::
  m.inverse ::
  (m.payload_type / 256 % 256) ::
  (m.payload_type % 256) ::
  (m.payload_length / 16777216 % 256) ::
  (m.payload_length / 65536 % 256) ::
  (m.payload_length / 256 % 256) ::
  (m.payload_length % 256) ::
  m.payload

/-- Modelled from the spec: DoIP decoding of a buffer holding one message
(spec §4.2 steps 1-3): read the 8 header bytes; reject when the inverse
byte differs from `~version`, when the version is outside {0x02, 0x03},
when the payload type is unknown, or when the payload length exceeds
`kMaxPayloadSize`; then read exactly `payload_length` payload bytes. -/
def decode (bs : List Nat) : Except CodecErr DoipMessage :=
  match bs with
  | v :: inv :: t1 :: t0 :: l3 :: l2 :: l1 :: l0 :: rest =>
    let pt : Nat := t1 * 256 + t0
    let pl : Nat := ((l3 * 256 + l2) * 256 + l1) * 256 + l0
    if inv ≠ 255 - v then .error .kIncorrectPattern
    else if ¬ (v = 2 ∨ v = 3) then .error .kIncorrectPattern
    else if pt ∉ knownPayloadTypes then .error .kUnknownPayloadType
    else if pl > kMaxPayloadSize then .error .kMessageTooLarge
    else if rest.length ≠ pl then .error .kInvalidPayloadLength
    else .ok ⟨v, inv, pt, pl, rest⟩
  | _ => .error .kIncorrectPattern

/-- The validity predicate exactly as the claim words it (spec §3
invariants): every field fits its C++ integer type, the inverse byte equals
`~protocol_version`, the payload length equals the number of payload bytes,
and the payload length is at most `kMaxPayloadSize`. -/
def ValidClaimDoipMessage (m : DoipMessage) : Prop :=
  m.protocol_version < 256 ∧ m.inverse < 256 ∧
  m.payload_type < 65536 ∧ m.payload_length < 4294967296 ∧
  (∀ b ∈ m.payload, b < 256) ∧
  m.inverse = 255 - m.protocol_version ∧
  m.payload_length = m.payload.length ∧
  m.payload_length ≤ kMaxPayloadSize

instance (m : DoipMessage) : Decidable (ValidClaimDoipMessage m) := by
  unfold ValidClaimDoipMessage; infer_instance

/-- A message that satisfies the claim's validity definition but whose
protocol version is neither 0x02 nor 0x03, so the decoder rejects its
encoding. -/
def doipVersion4Msg : DoipMessage :=
  { protocol_version := 4, inverse := 251, payload_type := 0x8001,
    payload_length := 0, payload := [] }

theorem u16_be_roundtrip (n : Nat) (h : n < 65536) :
    (n / 256 % 256) * 256 + n % 256 = n := by omega

theorem u32_be_roundtrip (n : Nat) (h : n < 4294967296) :
    (((n / 16777216 % 256) * 256 + n / 65536 % 256) * 256 + n / 256 % 256) * 256
      + n % 256 = n := by omega

/-- C2 (counterexample): the round-trip claim fails as stated: the message
`doipVersion4Msg` is valid in the claim's sense (inverse byte correct,
length field correct and within bounds) yet decoding its encoding yields a
header error, not the message, because the decoder accepts only protocol
versions 0x02 and 0x03. -/
theorem doip_roundtrip_counterexample :
    ValidClaimDoipMessage doipVersion4Msg ∧
    decode (encode doipVersion4Msg) ≠ Except.ok doipVersion4Msg := by
  refine ⟨by decide, fun h => ?_⟩
  rw [show decode (encode doipVersion4Msg)
        = Except.error CodecErr.kIncorrectPattern from rfl] at h
  exact Except.noConfusion h

/-- C2 (amended): for every valid DoIP message whose protocol version is
0x02 or 0x03 and whose payload type is one of the known DoIP payload
types, decoding the encoding yields the message back, and the encoded byte
string has length exactly `8 + payload_length`. -/
theorem doip_encode_decode_roundtrip (m : DoipMessage)
    (hval : ValidClaimDoipMessage m)
    (hver : m.protocol_version = 2 ∨ m.protocol_version = 3)
    (hpt : m.payload_type ∈ knownPayloadTypes) :
    decode (encode m) = Except.ok m ∧
    (encode m).length = 8 + m.payload_length := by
  obtain ⟨v, inv, pt, pl, payload⟩ := m
  obtain ⟨hv, hinv, hpt16, hpl32, hbytes, hinveq, hlen, hmax⟩ := hval
  simp only at hv hinv hpt16 hpl32 hinveq hlen hmax hver hpt
  constructor
  · simp only [encode, decode]
    rw [u16_be_roundtrip pt hpt16, u32_be_roundtrip pl hpl32]
    have h1 : ¬ (inv ≠ 255 - v) := not_not_intro hinveq
    have h2 : ¬ ¬ (v = 2 ∨ v = 3) := not_not_intro hver
    have h3 : ¬ (pt ∉ knownPayloadTypes) := not_not_intro hpt
    have h4 : ¬ (pl > kMaxPayloadSize) := not_lt.mpr hmax
    have h5 : ¬ (payload.length ≠ pl) := not_not_intro hlen.symm
    rw [if_neg h1, if_neg h2, if_neg h3, if_neg h4, if_neg h5]
  · simp only [encode, List.length_cons, hlen]
    omega

/-- C2 witness: a concrete valid version-0x02 diagnostic message
round-trips through the codec and its encoding is 8 + 3 bytes long. -/
theorem doip_encode_decode_roundtrip_witness :
    decode (encode ⟨2, 253, 0x8001, 3, [0x22, 0xF1, 0x90]⟩) =
      Except.ok ⟨2, 253, 0x8001, 3, [0x22, 0xF1, 0x90]⟩ ∧
    (encode ⟨2, 253, 0x8001, 3, [0x22, 0xF1, 0x90]⟩).length = 8 + 3 :=
  doip_encode_decode_roundtrip ⟨2, 253, 0x8001, 3, [0x22, 0xF1, 0x90]⟩
    (by decide) (by decide) (by decide)

/-! ## TCP channel state machine (spec §4.3) -/

/-- Modelled from the spec: the channel lifecycle states (spec §3,
"Channel"); the channel implementation is not among the available
sources. -/
inductive ChannelSMState where
  | kClosed
  | kConnecting
  | kConnectedNotActivated
  | kActivating
  | kActive
  | kSending
  | kWaitingAck
  | kWaitingResponse
  | kClosing
deriving DecidableEq

/-- Modelled from the spec: errors a channel reports or delivers
(spec §4.3 table and §7 "Connect"/"UDS transport"). -/
inductive ChError where
  | ErrTcpConnect
  | ErrRoutingActivation (code : Nat)
  | ErrRoutingActivationTimeout
  | ErrNegativeAck (code : Nat)
  | ErrAckTimeout
  | ErrResponseTimeout
  | ErrDisconnected
deriving DecidableEq

/-- Modelled from the spec: events a channel handler processes
(spec §4.3 transition table). -/
inductive ChEvent where
  | Connect (ip : String)
  | TcpReady
  | TcpFail
  | ConnectTimeout
  | ActivateRouting (source : Nat) (activationType : Nat)
  | RoutingActResponse (code : Nat)
  | CtrlTimeout
  | SendDiagnostic (req : List Nat)
  | DiagPositiveAck
  | DiagNegativeAck (code : Nat)
  | AckTimeout
  | DiagMessage (userData : List Nat)
  | ResponseTimeout
  | AliveCheckReq
  | PeerClose
  | GeneralInactivity
  | Disconnect
deriving DecidableEq

/-- Modelled from the spec: actions a channel transition performs
(spec §4.3 table "Action" column). -/
inductive ChAction where
  | openTcp
  | armConnectTimer
  | startInitialInactivityTimer
  | cancelInitialInactivityTimer
  | startGeneralInactivityTimer
  | sendRoutingActivationRequest (source : Nat) (activationType : Nat)
  | armCtrlTimer
  | sendDiagMessage (userData : List Nat)
  | armAckTimer
  | cancelAckTimer
  | armResponseTimer (ms : Nat)
  | deliverResponse (userData : List Nat)
  | deliverError (e : ChError)
  | reportError (e : ChError)
  | sendAliveCheckResponse (source : Nat)
  | closeStream
deriving DecidableEq

/-- Actions visible to the caller of `SendDiagnosticRequest`: delivery of a
response or of a terminal error. -/
def ChAction.isCallerDelivery : ChAction → Bool
  | .deliverResponse _ => true
  | .deliverError _ => true
  | _ => false

/-- Actions that (re-)send a diagnostic request on the wire. -/
def ChAction.isDiagSend : ChAction → Bool
  | .sendDiagMessage _ => true
  | _ => false

/-- Modelled from the spec: timer defaults (spec §4.3 "Timers"), in
milliseconds: baseline response timer 2 s, extended to the
response-pending value 5 s on each NRC 0x78. -/
def tAResponse : Nat := 2000

/-- Modelled from the spec: the extended (response-pending) timer value
(default 5 s). -/
def tAResponsePending : Nat := 5000

/-- Modelled from the spec: a channel: its FSM state, the tester source
address it serves, and the currently armed response-timer value (absent
when no response timer runs). -/
structure Channel where
  source : Nat
  st : ChannelSMState
  responseTimer : Option Nat
deriving DecidableEq

/-- Modelled from the spec: recognition of a UDS negative response with NRC
0x78 (response pending): first UDS byte 0x7F, NRC (third byte) 0x78
(spec §4.3 row "kWaitingResponse, DiagnosticMessage(with UDS 0x7F … 0x78)"
and glossary "Response-pending (0x78)"). -/
def isResponsePending (userData : List Nat) : Bool :=
  match userData with
  | 0x7F :: _ :: 0x78 :: _ => true
  | _ => false

/-- Modelled from the spec: the per-channel transition function, one row per
line of the spec §4.3 table. Events with no row for the current state are
ignored (the channel serializes events; unexpected ones are logged and
dropped, spec §4.3 "Tie-break"). -/
def channelStep (ch : Channel) (e : ChEvent) : Channel × List ChAction :=
  match ch.st, e with
  | .kClosed, .Connect _ =>
      ({ ch with st := .kConnecting }, [.openTcp, .armConnectTimer])
  | .kConnecting, .TcpReady =>
      ({ ch with st := .kConnectedNotActivated }, [.startInitialInactivityTimer])
  | .kConnecting, .TcpFail =>
      ({ ch with st := .kClosed }, [.reportError .ErrTcpConnect])
  | .kConnecting, .ConnectTimeout =>
      ({ ch with st := .kClosed }, [.reportError .ErrTcpConnect])
  | .kConnectedNotActivated, .ActivateRouting s t =>
      ({ ch with st := .kActivating },
       [.sendRoutingActivationRequest s t, .armCtrlTimer])
  | .kActivating, .RoutingActResponse code =>
      if code = 0x10 then
        ({ ch with st := .kActive },
         [.cancelInitialInactivityTimer, .startGeneralInactivityTimer])
      else
        ({ ch with st := .kClosing },
         [.reportError (.ErrRoutingActivation code), .closeStream])
  | .kActivating, .CtrlTimeout =>
      ({ ch with st := .kClosing }, [.reportError .ErrRoutingActivationTimeout])
  | .kActive, .SendDiagnostic req =>
      ({ ch with st := .kSending }, [.sendDiagMessage req, .armAckTimer])
  | .kSending, .DiagPositiveAck =>
      ({ ch with st := .kWaitingResponse, responseTimer := some tAResponse },
       [.cancelAckTimer, .armResponseTimer tAResponse])
  | .kSending, .DiagNegativeAck code =>
      ({ ch with st := .kActive }, [.deliverError (.ErrNegativeAck code)])
  | .kSending, .AckTimeout =>
      ({ ch with st := .kActive }, [.deliverError .ErrAckTimeout])
  | .kWaitingResponse, .DiagMessage ud =>
      if isResponsePending ud then
        ({ ch with responseTimer := some tAResponsePending },
         [.armResponseTimer tAResponsePending])
      else
        ({ ch with st := .kActive, responseTimer := none },
         [.deliverResponse ud])
  | .kWaitingResponse, .ResponseTimeout =>
      ({ ch with st := .kActive, responseTimer := none },
       [.deliverError .ErrResponseTimeout])
  | .kActive, .Disconnect =>
      ({ ch with st := .kClosed }, [.closeStream])
  | _, .AliveCheckReq =>
      if ch.st = .kClosed then (ch, [])
      else (ch, [.sendAliveCheckResponse ch.source])
  | _, .PeerClose =>
      if ch.st = .kClosed then (ch, [])
      else ({ ch with st := .kClosed }, [.deliverError .ErrDisconnected])
  | _, .GeneralInactivity =>
      if ch.st = .kClosed then (ch, [])
      else ({ ch with st := .kClosed }, [.deliverError .ErrDisconnected])
  | _, _ => (ch, [])

/-- Running a channel over a list of events, collecting all actions. -/
def channelRun : Channel → List ChEvent → Channel × List ChAction
  | ch, [] => (ch, [])
  | ch, e :: es =>
      let p := channelStep ch e
      let q := channelRun p.1 es
      (q.1, p.2 ++ q.2)

/-- Modelled from the spec: results of `ConnectToDiagServer`
(spec §4.6). -/
inductive ConnectResult where
  | kConnectSuccess
  | kConnectFailed
  | kRoutingActivationFailed
deriving DecidableEq

/-- Modelled from the spec: the observable behavior of the remote DoIP
server during a connect: whether it accepts the TCP connection, and the
routing-activation response code it replies with (`none` = no reply, the
control timer fires). -/
structure ServerBehavior where
  acceptsTcp : Bool
  routingResponse : Option Nat
deriving DecidableEq

/-- Modelled from the spec: `ConnectToDiagServer(target_logical, ip)`
(spec §4.6): drives the channel FSM through Connect + ActivateRouting; the
routing-activation request carries the conversation's tester source address
and its configured activation type; the result is `kConnectSuccess` when
the channel reaches `kActive`, `kConnectFailed` on TCP failure, and
`kRoutingActivationFailed` on denial or control-timer timeout. -/
def ConnectToDiagServer (ch : Channel) (targetLogical : Nat) (ip : String)
    (activationType : Nat) (srv : ServerBehavior) :
    ConnectResult × Channel × List ChAction :=
  let _ := targetLogical
  let p1 := channelStep ch (.Connect ip)
  if srv.acceptsTcp then
    let p2 := channelStep p1.1 .TcpReady
    let p3 := channelStep p2.1 (.ActivateRouting ch.source activationType)
    match srv.routingResponse with
    | some code =>
        let p4 := channelStep p3.1 (.RoutingActResponse code)
        (if p4.1.st = .kActive then .kConnectSuccess else .kRoutingActivationFailed,
         p4.1, p1.2 ++ p2.2 ++ p3.2 ++ p4.2)
    | none =>
        let p4 := channelStep p3.1 .CtrlTimeout
        (.kRoutingActivationFailed, p4.1, p1.2 ++ p2.2 ++ p3.2 ++ p4.2)
  else
    let p2 := channelStep p1.1 .TcpFail
    (.kConnectFailed, p2.1, p1.2 ++ p2.2)

/-- C1: from a channel in `kClosed`, `ConnectToDiagServer` against a server
that accepts the TCP connection and replies to the routing-activation
request with code 0x10 returns `kConnectSuccess`, leaves the channel in
`kActive`, and the request sent on the wire carries the tester source
address and activation type 0x00. -/
theorem connect_routing_activation_success (ch : Channel) (tgt : Nat)
    (ip : String) (h : ch.st = .kClosed) :
    (ConnectToDiagServer ch tgt ip 0x00 ⟨true, some 0x10⟩).1
      = .kConnectSuccess ∧
    (ConnectToDiagServer ch tgt ip 0x00 ⟨true, some 0x10⟩).2.1.st
      = .kActive ∧
    ChAction.sendRoutingActivationRequest ch.source 0x00
      ∈ (ConnectToDiagServer ch tgt ip 0x00 ⟨true, some 0x10⟩).2.2 := by
  obtain ⟨src, st, rt⟩ := ch
  simp only at h
  subst h
  simp [ConnectToDiagServer, channelStep]

/-- C1 witness: the concrete scenario of the component test: tester source
0x0001 on a closed channel connecting to server 0xFA25 at 172.16.25.128,
server replying with routing-activation code 0x10. -/
theorem connect_routing_activation_success_witness :
    (ConnectToDiagServer ⟨0x0001, .kClosed, none⟩ 0xFA25 "172.16.25.128"
        0x00 ⟨true, some 0x10⟩).1 = .kConnectSuccess ∧
    (ConnectToDiagServer ⟨0x0001, .kClosed, none⟩ 0xFA25 "172.16.25.128"
        0x00 ⟨true, some 0x10⟩).2.1.st = .kActive ∧
    ChAction.sendRoutingActivationRequest 0x0001 0x00
      ∈ (ConnectToDiagServer ⟨0x0001, .kClosed, none⟩ 0xFA25 "172.16.25.128"
          0x00 ⟨true, some 0x10⟩).2.2 :=
  connect_routing_activation_success ⟨0x0001, .kClosed, none⟩ 0xFA25
    "172.16.25.128" rfl

theorem channelStep_pending (ch : Channel) (ud : List Nat)
    (h : ch.st = .kWaitingResponse) (hp : isResponsePending ud = true) :
    channelStep ch (.DiagMessage ud)
      = ({ ch with responseTimer := some tAResponsePending },
         [.armResponseTimer tAResponsePending]) := by
  obtain ⟨src, st, rt⟩ := ch
  simp only at h
  subst h
  simp [channelStep, hp]

/-- C3: a channel in `kWaitingResponse` that receives any number N ≥ 0 of
consecutive DiagnosticMessages whose UDS payload starts with 0x7F and
carries NRC 0x78 stays in `kWaitingResponse`; after at least one such
message the response timer holds the extended (response-pending) value;
and no action delivers anything to the caller or re-sends the diagnostic
request. -/
theorem response_pending_keeps_waiting (ch : Channel) (uds : List (List Nat))
    (h : ch.st = .kWaitingResponse)
    (hp : ∀ u ∈ uds, isResponsePending u = true) :
    (channelRun ch (uds.map ChEvent.DiagMessage)).1.st = .kWaitingResponse ∧
    (uds ≠ [] →
      (channelRun ch (uds.map ChEvent.DiagMessage)).1.responseTimer
        = some tAResponsePending) ∧
    (∀ a ∈ (channelRun ch (uds.map ChEvent.DiagMessage)).2,
      a.isCallerDelivery = false ∧ a.isDiagSend = false) := by
  induction uds generalizing ch with
  | nil =>
      simp [channelRun, h]
  | cons u us ih =>
      have hu : isResponsePending u = true := hp u (List.mem_cons_self u us)
      have hus : ∀ v ∈ us, isResponsePending v = true :=
        fun v hv => hp v (List.mem_cons_of_mem u hv)
      have hstep := channelStep_pending ch u h hu
      have h1 : ({ ch with responseTimer := some tAResponsePending }
                  : Channel).st = .kWaitingResponse := h
      obtain ⟨ihst, ihtimer, ihacts⟩ :=
        ih { ch with responseTimer := some tAResponsePending } h1 hus
      refine ⟨?_, ?_, ?_⟩
      · simpa [channelRun, hstep] using ihst
      · intro _
        rcases List.eq_nil_or_concat us with hnil | _
        · subst hnil
          simp [channelRun, hstep]
        · have : us ≠ [] := by
            rename_i hcat
            obtain ⟨l, a, rfl⟩ := hcat
            simp
          simpa [channelRun, hstep] using ihtimer this
      · intro a ha
        simp only [channelRun, hstep, List.map_cons] at ha
        rcases List.mem_append.mp ha with hl | hr
        · have haeq : a = ChAction.armResponseTimer tAResponsePending := by
            simpa using hl
          subst haeq
          exact ⟨rfl, rfl⟩
        · exact ihacts a hr

/-- C3 witness: a channel in `kWaitingResponse` receiving three consecutive
`0x7F 0x22 0x78` response-pending messages stays in `kWaitingResponse`
with the extended timer armed, and no caller delivery or re-send occurs. -/
theorem response_pending_keeps_waiting_witness :
    (channelRun ⟨0x0001, .kWaitingResponse, some tAResponse⟩
        ([[0x7F, 0x22, 0x78], [0x7F, 0x22, 0x78], [0x7F, 0x22, 0x78]].map
          ChEvent.DiagMessage)).1.st = .kWaitingResponse ∧
    ([[0x7F, 0x22, 0x78], [0x7F, 0x22, 0x78], [0x7F, 0x22, 0x78]]
        ≠ ([] : List (List Nat)) →
      (channelRun ⟨0x0001, .kWaitingResponse, some tAResponse⟩
          ([[0x7F, 0x22, 0x78], [0x7F, 0x22, 0x78], [0x7F, 0x22, 0x78]].map
            ChEvent.DiagMessage)).1.responseTimer = some tAResponsePending) ∧
    (∀ a ∈ (channelRun ⟨0x0001, .kWaitingResponse, some tAResponse⟩
        ([[0x7F, 0x22, 0x78], [0x7F, 0x22, 0x78], [0x7F, 0x22, 0x78]].map
          ChEvent.DiagMessage)).2,
      a.isCallerDelivery = false ∧ a.isDiagSend = false) :=
  response_pending_keeps_waiting ⟨0x0001, .kWaitingResponse, some tAResponse⟩
    [[0x7F, 0x22, 0x78], [0x7F, 0x22, 0x78], [0x7F, 0x22, 0x78]]
    rfl (by decide)

/-! ## Conversation manager uniqueness slots (spec §4.6) -/

/-- Modelled from the spec: the conversation manager's record of active
channels, used to enforce at most one active channel per
`(tester_source_address, server_logical_address)` pair (spec §4.6); the
manager implementation is not among the available sources. -/
structure ManagerState where
  activeSlots : List (Nat × Nat)
deriving DecidableEq

/-- Modelled from the spec: outcome of a managed connect: the three
`ConnectToDiagServer` results (spec §4.6) plus the uniqueness rejection
`kAlreadyConnected` (spec §7 "Connect"). -/
inductive ManagedConnectResult where
  | kConnectSuccess
  | kConnectFailed
  | kRoutingActivationFailed
  | kAlreadyConnected
deriving DecidableEq

/-- Modelled from the spec: results of `DisconnectFromDiagServer`
(spec §4.6). -/
inductive DisconnectResult where
  | kDisconnectSuccess
  | kDisconnectFailed
deriving DecidableEq

/-- Modelled from the spec: a connect issued through the conversation
manager: a duplicate `(source, target)` pair fails with
`kAlreadyConnected`; otherwise the channel FSM runs `ConnectToDiagServer`
and a successful connect occupies the slot. -/
def ManagerConnect (m : ManagerState) (ch : Channel) (tgt : Nat) (ip : String)
    (activationType : Nat) (srv : ServerBehavior) :
    ManagedConnectResult × Channel × ManagerState :=
  if (ch.source, tgt) ∈ m.activeSlots then (.kAlreadyConnected, ch, m)
  else
    let p := ConnectToDiagServer ch tgt ip activationType srv
    match p.1 with
    | .kConnectSuccess =>
        (.kConnectSuccess, p.2.1, ⟨(ch.source, tgt) :: m.activeSlots⟩)
    | .kConnectFailed => (.kConnectFailed, p.2.1, m)
    | .kRoutingActivationFailed => (.kRoutingActivationFailed, p.2.1, m)

/-- Modelled from the spec: `DisconnectFromDiagServer` (spec §4.6): an
active channel is closed (`kActive → kClosing → kClosed`, spec §4.3 last
row), the `(source, target)` slot is released and `kDisconnectSuccess` is
reported; a channel not in `kActive` reports `kDisconnectFailed`. -/
def ManagerDisconnect (m : ManagerState) (ch : Channel) (tgt : Nat) :
    DisconnectResult × Channel × ManagerState :=
  if ch.st = .kActive then
    let p := channelStep ch .Disconnect
    (.kDisconnectSuccess, p.1, ⟨m.activeSlots.erase (ch.source, tgt)⟩)
  else (.kDisconnectFailed, ch, m)

/-- C6: from a closed channel whose `(source, target)` slot is free,
`ManagerConnect` against a server that accepts and activates routing
followed by `ManagerDisconnect` returns the channel to `kClosed`, reports
`kDisconnectSuccess`, frees the slot, and a subsequent connect to the same
pair is not rejected with `kAlreadyConnected`. -/
theorem connect_then_disconnect_roundtrip (m : ManagerState) (ch : Channel)
    (tgt : Nat) (ip : String) (h1 : ch.st = .kClosed)
    (h2 : (ch.source, tgt) ∉ m.activeSlots) :
    (ManagerDisconnect (ManagerConnect m ch tgt ip 0x00
        ⟨true, some 0x10⟩).2.2
      (ManagerConnect m ch tgt ip 0x00 ⟨true, some 0x10⟩).2.1 tgt).1
        = .kDisconnectSuccess ∧
    (ManagerDisconnect (ManagerConnect m ch tgt ip 0x00
        ⟨true, some 0x10⟩).2.2
      (ManagerConnect m ch tgt ip 0x00 ⟨true, some 0x10⟩).2.1 tgt).2.1.st
        = .kClosed ∧
    (ManagerDisconnect (ManagerConnect m ch tgt ip 0x00
        ⟨true, some 0x10⟩).2.2
      (ManagerConnect m ch tgt ip 0x00 ⟨true, some 0x10⟩).2.1 tgt).2.2
        = m ∧
    (ManagerConnect
      (ManagerDisconnect (ManagerConnect m ch tgt ip 0x00
          ⟨true, some 0x10⟩).2.2
        (ManagerConnect m ch tgt ip 0x00 ⟨true, some 0x10⟩).2.1 tgt).2.2
      (ManagerDisconnect (ManagerConnect m ch tgt ip 0x00
          ⟨true, some 0x10⟩).2.2
        (ManagerConnect m ch tgt ip 0x00 ⟨true, some 0x10⟩).2.1 tgt).2.1
      tgt ip 0x00 ⟨true, some 0x10⟩).1 ≠ .kAlreadyConnected := by
  obtain ⟨src, st, rt⟩ := ch
  obtain ⟨slots⟩ := m
  simp only at h1 h2
  subst h1
  have hconn :
      ManagerConnect ⟨slots⟩ ⟨src, .kClosed, rt⟩ tgt ip 0x00 ⟨true, some 0x10⟩
        = (.kConnectSuccess, ⟨src, .kActive, rt⟩, ⟨(src, tgt) :: slots⟩) := by
    simp [ManagerConnect, h2, ConnectToDiagServer, channelStep]
  rw [hconn]
  have hdisc :
      ManagerDisconnect ⟨(src, tgt) :: slots⟩ ⟨src, .kActive, rt⟩ tgt
        = (.kDisconnectSuccess, ⟨src, .kClosed, rt⟩, ⟨slots⟩) := by
    simp [ManagerDisconnect, channelStep, List.erase_cons_head]
  rw [hdisc]
  refine ⟨rfl, rfl, rfl, ?_⟩
  rw [hconn]
  simp

/-- C6 witness: the concrete test pair (source 0x0001, server 0xFA25) on an
empty manager: connect then disconnect succeeds, lands in `kClosed`, and a
reconnect is not rejected as already connected. -/
theorem connect_then_disconnect_roundtrip_witness :
    (ManagerDisconnect (ManagerConnect ⟨[]⟩ ⟨0x0001, .kClosed, none⟩ 0xFA25
        "172.16.25.128" 0x00 ⟨true, some 0x10⟩).2.2
      (ManagerConnect ⟨[]⟩ ⟨0x0001, .kClosed, none⟩ 0xFA25 "172.16.25.128"
        0x00 ⟨true, some 0x10⟩).2.1 0xFA25).1 = .kDisconnectSuccess ∧
    (ManagerDisconnect (ManagerConnect ⟨[]⟩ ⟨0x0001, .kClosed, none⟩ 0xFA25
        "172.16.25.128" 0x00 ⟨true, some 0x10⟩).2.2
      (ManagerConnect ⟨[]⟩ ⟨0x0001, .kClosed, none⟩ 0xFA25 "172.16.25.128"
        0x00 ⟨true, some 0x10⟩).2.1 0xFA25).2.1.st = .kClosed ∧
    (ManagerDisconnect (ManagerConnect ⟨[]⟩ ⟨0x0001, .kClosed, none⟩ 0xFA25
        "172.16.25.128" 0x00 ⟨true, some 0x10⟩).2.2
      (ManagerConnect ⟨[]⟩ ⟨0x0001, .kClosed, none⟩ 0xFA25 "172.16.25.128"
        0x00 ⟨true, some 0x10⟩).2.1 0xFA25).2.2 = (⟨[]⟩ : ManagerState) ∧
    (ManagerConnect
      (ManagerDisconnect (ManagerConnect ⟨[]⟩ ⟨0x0001, .kClosed, none⟩ 0xFA25
          "172.16.25.128" 0x00 ⟨true, some 0x10⟩).2.2
        (ManagerConnect ⟨[]⟩ ⟨0x0001, .kClosed, none⟩ 0xFA25 "172.16.25.128"
          0x00 ⟨true, some 0x10⟩).2.1 0xFA25).2.2
      (ManagerDisconnect (ManagerConnect ⟨[]⟩ ⟨0x0001, .kClosed, none⟩ 0xFA25
          "172.16.25.128" 0x00 ⟨true, some 0x10⟩).2.2
        (ManagerConnect ⟨[]⟩ ⟨0x0001, .kClosed, none⟩ 0xFA25 "172.16.25.128"
          0x00 ⟨true, some 0x10⟩).2.1 0xFA25).2.1
      0xFA25 "172.16.25.128" 0x00 ⟨true, some 0x10⟩).1 ≠ .kAlreadyConnected :=
  connect_then_disconnect_roundtrip ⟨[]⟩ ⟨0x0001, .kClosed, none⟩ 0xFA25
    "172.16.25.128" rfl (by decide)

/-! ## Vehicle discovery (spec §4.5) -/

/-- Result type mirroring `core/result.h`'s `Result<T, E>`: a tagged value
or a typed error (its definition is not among the available sources; the
facade in `diagnostic_client.cpp` uses `FromValue`, `CheckError`,
`MapError` and `AndThen` with the usual short-circuit semantics). -/
inductive Result (α : Type) (ε : Type) where
  | Value : α → Result α ε
  | Err : ε → Result α ε
deriving DecidableEq

/-- Modelled from the spec: one record of the vehicle-information response
collection (spec §3 "VehicleInfoResponse collection"): IP of the
announcing server, its logical address, VIN, EID and GID. -/
structure VehicleAddrInfo where
  ip : String
  logical_address : Nat
  vin : String
  eid : String
  gid : String
deriving DecidableEq

/-- Modelled from the spec: the vehicle-identification request as the test
constructs it: a preselection mode (0 = no filter, 1 = by VIN, 2 = by EID)
and the preselection value. -/
structure VehicleInfoListRequestType where
  preselection_mode : Nat
  preselection_value : String
deriving DecidableEq

/-- Modelled from the spec: discovery error kinds (spec §7 "Discovery";
the timeout is benign and never surfaces as an error). -/
inductive DiscoveryErr where
  | kUdpSendFailed
deriving DecidableEq

/-- Modelled from the spec: de-duplication of announcement records on
`logical_address`, keeping the first arrival (spec §4.5 "Deduplicates on
logical_address"; spec §5 "Discovery responses are delivered in arrival
order"). -/
def dedupByLogicalAddress (rs : List VehicleAddrInfo) : List VehicleAddrInfo :=
  rs.foldl
    (fun acc r =>
      if acc.any (fun x => x.logical_address == r.logical_address) then acc
      else acc ++ [r])
    []

/-- Modelled from the spec: `SendVehicleIdentificationRequest(filter)`
(spec §4.5): the request is broadcast (`udpSendOk` tells whether the UDP
send succeeded); the well-formed announcements arriving within the
discovery window (`received`, in arrival order; malformed replies are
discarded and never fatal) are de-duplicated on logical address and
returned; an empty collection is success, not an error. -/
def SendVehicleIdentificationRequest (req : VehicleInfoListRequestType)
    (udpSendOk : Bool) (received : List VehicleAddrInfo) :
    Result (List VehicleAddrInfo) DiscoveryErr :=
  let _ := req
  if udpSendOk then .Value (dedupByLogicalAddress received)
  else .Err .kUdpSendFailed

/-- C4: when exactly one server answers a vehicle-identification request
sent with the empty filter (mode 0, empty value), the call returns success
with a collection holding exactly that server's record (ip, logical
address, VIN, EID and GID as announced). -/
theorem discovery_single_server (r : VehicleAddrInfo) :
    SendVehicleIdentificationRequest ⟨0, ""⟩ true [r] = .Value [r] := by
  simp [SendVehicleIdentificationRequest, dedupByLogicalAddress]

/-- C5: when no server responds within the discovery window, the call
returns a successful result carrying the empty collection; the timeout is
not reported as an error. -/
theorem discovery_no_responders (req : VehicleInfoListRequestType) :
    SendVehicleIdentificationRequest req true [] = .Value [] := by
  simp [SendVehicleIdentificationRequest, dedupByLogicalAddress]

/-! ## Client facade lifecycle (`appl/src/diagnostic_client.cpp`) -/

/-- Error codes of the external configuration parser
(`boost_support::parser::ParsingErrorCode`; configuration parsing is an
external collaborator per spec §1, so only the two failure classes the
spec distinguishes are modelled: file not found, malformed content). -/
inductive ParsingErrorCode where
  | kFileNotFound
  | kParseFailure
deriving DecidableEq

/-- `DiagClient::InitDeInitErrorCode`: the code the facade actually
returns on a configuration-read failure (`diagnostic_client.cpp:77`
maps every `ParsingErrorCode` to `kInitializationFailed`). -/
inductive InitDeInitErrorCode where
  | kInitializationFailed
  | kDeInitializationFailed
deriving DecidableEq

/-- The parsed configuration tree (`boost_support::parser::boost_tree`,
filled by `Read`); its content is opaque to the facade. -/
structure ConfigTree where
  entries : List (String × String)
deriving DecidableEq

/-- The DCM instance the facade owns
(`std::unique_ptr<common::DiagnosticManager> dcm_instance_`): it holds the
configuration it was constructed from and a flag set by
`SignalShutdown()` (declared in `common/diagnostic_manager.h`). -/
structure DCMClient where
  config : ConfigTree
  shutdownRequested : Bool
deriving DecidableEq

/-- The scheduler thread `dcm_thread_`: default-constructed (not
joinable), running after `Initialize` spawned it, or joined. `joinable()`
holds exactly in the running state. -/
inductive ThreadState where
  | notStarted
  | running
  | joined
deriving DecidableEq

/-- State of `DiagClient::DiagClientImpl` (`diagnostic_client.cpp:27`):
the optional DCM instance (`none` models the null `unique_ptr`), the
scheduler thread and the stored config path. -/
structure DiagClientImpl where
  dcm_instance_ : Option DCMClient
  dcm_thread_ : ThreadState
  diag_client_config_path_ : String
deriving DecidableEq

/-- The `DiagClientImpl` constructor (`diagnostic_client.cpp:35`):
`dcm_instance_{}` is the null pointer and `dcm_thread_{}` the
default-constructed thread. -/
def mkDiagClientImpl (path : String) : DiagClientImpl :=
  { dcm_instance_ := none, dcm_thread_ := .notStarted,
    diag_client_config_path_ := path }

/-- `DiagClientImpl::Initialize` (`diagnostic_client.cpp:64-89`). The
outcome of `boost_support::parser::Read(diag_client_config_path_, config)`
is the `parse` argument (the parser is an external collaborator). The
combinator chain is embedded by cases: on a parsing error, `CheckError`
logs and keeps the error, `MapError` collapses it to
`kInitializationFailed`, and the `AndThen` body is skipped; on success the
`AndThen` body constructs the DCM instance from the configuration and
starts the `DCMClient_Main` thread. -/
def Initialize (s : DiagClientImpl) (parse : Except ParsingErrorCode ConfigTree) :
    Result Unit InitDeInitErrorCode × DiagClientImpl :=
  match parse with
  | .error _ => (.Err .kInitializationFailed, s)
  | .ok config =>
      (.Value (),
       { s with dcm_instance_ := some { config := config, shutdownRequested := false },
                dcm_thread_ := .running })

/-- `DiagClientImpl::DeInitialize` (`diagnostic_client.cpp:98-109`):
`dcm_instance_->SignalShutdown()` is an unconditional dereference, so the
call is undefined (`none`) when `dcm_instance_` is null; otherwise
shutdown is signalled and, when `dcm_thread_.joinable()`, the thread is
joined — `std::thread::join` returns only after the thread has
terminated. -/
def DeInitialize (s : DiagClientImpl) :
    Option (Result Unit InitDeInitErrorCode × DiagClientImpl) :=
  match s.dcm_instance_ with
  | none => none
  | some dcm =>
      some (.Value (),
        { s with
          dcm_instance_ := some { dcm with shutdownRequested := true },
          dcm_thread_ :=
            if s.dcm_thread_ = .running then .joined else s.dcm_thread_ })

/-- `DiagClientImpl::GetDiagnosticClientConversation`
(`diagnostic_client.cpp:118-121`): a plain forward through
`dcm_instance_->...`, so undefined (`none`) on a null `dcm_instance_`;
the delegate's own behavior lives in the DCM sources and is outside this
model. -/
def GetDiagnosticClientConversation (s : DiagClientImpl) (name : String) :
    Option Unit :=
  let _ := name
  s.dcm_instance_.map (fun _ => ())

/-- `DiagClientImpl::SendVehicleIdentificationRequest`
(`diagnostic_client.cpp:130-134`): forwards through `dcm_instance_->...`
(undefined on null), the delegate being the discovery operation of
spec §4.5. -/
def SendVehicleIdentificationRequestImpl (s : DiagClientImpl)
    (req : VehicleInfoListRequestType) (udpSendOk : Bool)
    (received : List VehicleAddrInfo) :
    Option (Result (List VehicleAddrInfo) DiscoveryErr) :=
  s.dcm_instance_.map (fun _ => SendVehicleIdentificationRequest req udpSendOk received)

/-- C10: `Initialize` is atomic on error: when reading the configuration
fails, it returns `kInitializationFailed` and the client state is exactly
the state before the call — no DCM instance is constructed and no
background thread is spawned, so a client after a failed `Initialize` is
observably identical to a freshly constructed one. -/
theorem initialize_error_atomic (s : DiagClientImpl) (e : ParsingErrorCode) :
    Initialize s (.error e) = (.Err .kInitializationFailed, s) := rfl

/-- C8 (counterexample): the facade does not distinguish the
initialization failure classes: a config-not-found failure and a malformed
config failure produce the identical result, the single code
`kInitializationFailed`. -/
theorem initialize_error_not_distinguished :
    (Initialize (mkDiagClientImpl "diag_client_config.json")
        (.error .kFileNotFound)).1
      = (Initialize (mkDiagClientImpl "diag_client_config.json")
          (.error .kParseFailure)).1 ∧
    (Initialize (mkDiagClientImpl "diag_client_config.json")
        (.error .kFileNotFound)).1
      = .Err .kInitializationFailed := ⟨rfl, rfl⟩

/-- C8 (amended): when the configuration file cannot be found or parsed,
`Initialize` returns the error synchronously from the call itself — no
background thread is started — but the error is always the single code
`kInitializationFailed`; the failure classes are not distinguished. -/
theorem initialize_config_error_synchronous (s : DiagClientImpl)
    (e : ParsingErrorCode) :
    (Initialize s (.error e)).1 = .Err .kInitializationFailed ∧
    (Initialize s (.error e)).2.dcm_thread_ = s.dcm_thread_ ∧
    (Initialize s (.error e)).2.dcm_instance_ = s.dcm_instance_ :=
  ⟨rfl, rfl, rfl⟩

/-- C9: on a never-successfully-initialized client — freshly constructed,
or after an `Initialize` that failed — `dcm_instance_` is null, and
`DeInitialize`, `GetDiagnosticClientConversation` and
`SendVehicleIdentificationRequest` all dereference that null pointer
(modelled as `none`). -/
theorem uninitialized_operations_deref_null (path name : String)
    (e : ParsingErrorCode) (req : VehicleInfoListRequestType) (ok : Bool)
    (rs : List VehicleAddrInfo) :
    (mkDiagClientImpl path).dcm_instance_ = none ∧
    DeInitialize (mkDiagClientImpl path) = none ∧
    GetDiagnosticClientConversation (mkDiagClientImpl path) name = none ∧
    SendVehicleIdentificationRequestImpl (mkDiagClientImpl path) req ok rs
      = none ∧
    DeInitialize (Initialize (mkDiagClientImpl path) (.error e)).2 = none ∧
    GetDiagnosticClientConversation
      (Initialize (mkDiagClientImpl path) (.error e)).2 name = none ∧
    SendVehicleIdentificationRequestImpl
      (Initialize (mkDiagClientImpl path) (.error e)).2 req ok rs = none :=
  ⟨rfl, rfl, rfl, rfl, rfl, rfl, rfl⟩

/-- C7: on an initialized client, `DeInitialize` succeeds, signals
shutdown to the DCM scheduler, and after it returns the scheduler thread
is no longer running (a running thread has been joined, and
`std::thread::join` returns only once the thread has terminated), so no
scheduler activity remains observable. -/
theorem deinitialize_joins_scheduler (s : DiagClientImpl) (dcm : DCMClient)
    (h : s.dcm_instance_ = some dcm) :
    ∃ s2, DeInitialize s = some (.Value (), s2) ∧
      s2.dcm_thread_ ≠ .running ∧
      s2.dcm_instance_ = some { dcm with shutdownRequested := true } := by
  refine ⟨{ s with
            dcm_instance_ := some { dcm with shutdownRequested := true },
            dcm_thread_ :=
              if s.dcm_thread_ = .running then .joined else s.dcm_thread_ },
          ?_, ?_, rfl⟩
  · simp only [DeInitialize, h]
  · by_cases hr : s.dcm_thread_ = .running <;> simp [hr]

/-- C7 witness: a concrete initialized client (running scheduler thread)
de-initializes to a state with shutdown signalled and the thread no longer
running. -/
theorem deinitialize_joins_scheduler_witness :
    ∃ s2, DeInitialize
        ⟨some ⟨⟨[]⟩, false⟩, .running, "diag_client_config.json"⟩
        = some (.Value (), s2) ∧
      s2.dcm_thread_ ≠ .running ∧
      s2.dcm_instance_ = some ⟨⟨[]⟩, true⟩ :=
  deinitialize_joins_scheduler
    ⟨some ⟨⟨[]⟩, false⟩, .running, "diag_client_config.json"⟩ ⟨⟨[]⟩, false⟩ rfl

end DiagClientLib
